import Mathlib

/-!
Verification of `node-mavlink-ftp` (`src/index.ts`) against its specification.

The TypeScript source is shallowly embedded: buffers become `List Nat`
(byte values), fallible buffer reads/writes (which throw `ERR_OUT_OF_RANGE`
in Node) become `Option`-valued functions, thrown `Error`s become
`Except String`, and the asynchronous request/response exchanges of the
`MavFTP` class are modelled by passing the observed response (or `none`
for a timeout) explicitly as a script.
-/

namespace MavFtp

/-- The `payload` data of a `FileTransferProtocol` message, mirroring the
`FileTransferProtocolPayload` interface of `src/index.ts`.  The optional
TypeScript fields `reqOpcode` and `offset` become `Option Nat`. -/
structure FileTransferProtocolPayload where
  seq : Nat
  session : Nat
  opcode : Nat
  size : Nat
  reqOpcode : Option Nat
  burstComplete : Nat
  offset : Option Nat
  data : List Nat
  deriving DecidableEq

/-- `Buffer.writeUInt8`: yields the single byte, or fails (Node throws
`ERR_OUT_OF_RANGE`) when the value does not fit in one byte. -/
def writeUInt8 (v : Nat) : Option (List Nat) :=
  if v ≤ 255 then some [v] else none

/-- `Buffer.writeUInt16LE`: two little-endian bytes, or failure when the
value does not fit in 16 bits. -/
def writeUInt16LE (v : Nat) : Option (List Nat) :=
  if v ≤ 65535 then some [v % 256, v / 256] else none

/-- `Buffer.writeUInt32LE`: four little-endian bytes, or failure when the
value does not fit in 32 bits. -/
def writeUInt32LE (v : Nat) : Option (List Nat) :=
  if v ≤ 4294967295 then
    some [v % 256, v / 256 % 256, v / 65536 % 256, v / 16777216 % 256]
  else none

/-- The data-copy loop of `serialize`: one `writeUInt8` per data byte. -/
def writeBytes : List Nat → Option (List Nat)
  | [] => some []
  | b :: rest => do
    let hb ← writeUInt8 b
    let tb ← writeBytes rest
    pure (hb ++ tb)

/-- `FileTransferProtocolPayloadSerializer.serialize`: a 12-byte
little-endian header (`seq:2, session:1, opcode:1, size:1, reqOpcode:1,
burstComplete:1, reserved 0:1, offset:4`) followed by the data bytes.
`payload.reqOpcode || 0` and `payload.offset || 0` become `Option.getD`. -/
def serialize (payload : FileTransferProtocolPayload) : Option (List Nat) := do
  let seqB ← writeUInt16LE payload.seq
  let sessionB ← writeUInt8 payload.session
  let opcodeB ← writeUInt8 payload.opcode
  let sizeB ← writeUInt8 payload.size
  let reqB ← writeUInt8 (payload.reqOpcode.getD 0)
  let burstB ← writeUInt8 payload.burstComplete
  let offsetB ← writeUInt32LE (payload.offset.getD 0)
  let dataB ← writeBytes payload.data
  pure (seqB ++ sessionB ++ opcodeB ++ sizeB ++ reqB ++ burstB ++ [0] ++ offsetB ++ dataB)

/-- `Buffer.readUInt8`: the byte at `off`, failing when out of range. -/
def readUInt8 (buf : List Nat) (off : Nat) : Option Nat := buf[off]?

/-- `Buffer.readUInt16LE` at `off`. -/
def readUInt16LE (buf : List Nat) (off : Nat) : Option Nat := do
  let b0 ← buf[off]?
  let b1 ← buf[off + 1]?
  pure (b0 + b1 * 256)

/-- `Buffer.readUInt32LE` at `off`. -/
def readUInt32LE (buf : List Nat) (off : Nat) : Option Nat := do
  let b0 ← buf[off]?
  let b1 ← buf[off + 1]?
  let b2 ← buf[off + 2]?
  let b3 ← buf[off + 3]?
  pure (b0 + b1 * 256 + b2 * 65536 + b3 * 16777216)

/-- The data-copy loop of `deserialize`: `n` consecutive `readUInt8`s
starting at `off`. -/
def readBytes (buf : List Nat) (off : Nat) : Nat → Option (List Nat)
  | 0 => some []
  | n + 1 => do
    let b ← buf[off]?
    let rest ← readBytes buf (off + 1) n
    pure (b :: rest)

/-- `FileTransferProtocolPayloadSerializer.deserialize`: reads the `size`
byte at offset 4, then the remaining header fields, then copies `size`
bytes starting at offset 12 into `data`.  Any out-of-range read makes the
whole call fail, as the corresponding Node reads throw. -/
def deserialize (buffer : List Nat) : Option FileTransferProtocolPayload := do
  let size ← readUInt8 buffer 4
  let seq ← readUInt16LE buffer 0
  let session ← readUInt8 buffer 2
  let opcode ← readUInt8 buffer 3
  let reqOpcode ← readUInt8 buffer 5
  let burstComplete ← readUInt8 buffer 6
  let offset ← readUInt32LE buffer 8
  let data ← readBytes buffer 12 size
  pure {
    seq := seq, session := session, opcode := opcode, size := size,
    reqOpcode := some reqOpcode, burstComplete := burstComplete,
    offset := some offset, data := data
  }

/-! ### Lemmas about the byte-level helpers -/

theorem writeBytes_of_bytes (l : List Nat) (h : ∀ b ∈ l, b < 256) :
    writeBytes l = some l := by
  induction l with
  | nil => rfl
  | cons b rest ih =>
    have hb : b ≤ 255 := Nat.lt_succ_iff.mp (h b (List.mem_cons_self b rest))
    have hrest := ih fun x hx => h x (List.mem_cons_of_mem b hx)
    simp [writeBytes, writeUInt8, hb, hrest]

theorem getElem?_some_lt {buf : List Nat} {off b : Nat} (h : buf[off]? = some b) :
    off < buf.length := by
  by_contra hc
  rw [List.getElem?_eq_none (by omega)] at h
  cases h

theorem readBytes_append_mid : ∀ (mid pre post : List Nat),
    readBytes (pre ++ (mid ++ post)) pre.length mid.length = some mid := by
  intro mid
  induction mid with
  | nil => intro pre post; rfl
  | cons b t ih =>
    intro pre post
    have h1 : (pre ++ (b :: (t ++ post)))[pre.length]? = some b := by
      rw [List.getElem?_append_right (Nat.le_refl _)]
      simp
    have h2 : readBytes (pre ++ (b :: (t ++ post))) (pre.length + 1) t.length = some t := by
      have h := ih (pre ++ [b]) post
      simpa [List.append_assoc] using h
    show readBytes (pre ++ (b :: (t ++ post))) pre.length (t.length + 1) = some (b :: t)
    simp [readBytes, h1, h2]

theorem readBytes_append (post pre : List Nat) :
    readBytes (pre ++ post) pre.length post.length = some post := by
  have h := readBytes_append_mid post pre []
  simpa using h

theorem readBytes_some_le (buf : List Nat) :
    ∀ n off l, readBytes buf off n = some l → n = 0 ∨ off + n ≤ buf.length := by
  intro n
  induction n with
  | zero => intro off l _; exact Or.inl rfl
  | succ m ih =>
    intro off l h
    cases hb : buf[off]? with
    | none => simp [readBytes, hb] at h
    | some b =>
      cases hr : readBytes buf (off + 1) m with
      | none => simp [readBytes, hb, hr] at h
      | some t =>
        have hlt := getElem?_some_lt hb
        rcases ih (off + 1) t hr with h0 | hle
        · right; omega
        · right; omega

theorem readBytes_of_le (buf : List Nat) (off n : Nat) (h : off + n ≤ buf.length) :
    readBytes buf off n = some ((buf.drop off).take n) := by
  have hsplit : buf = buf.take off ++ ((buf.drop off).take n ++ (buf.drop off).drop n) := by
    rw [List.take_append_drop, List.take_append_drop]
  have hlen : (buf.take off).length = off := by
    rw [List.length_take]; omega
  have hmid : ((buf.drop off).take n).length = n := by
    rw [List.length_take, List.length_drop]; omega
  have hmain := readBytes_append_mid ((buf.drop off).take n) (buf.take off) ((buf.drop off).drop n)
  rw [hlen, hmid] at hmain
  rw [← hsplit] at hmain
  exact hmain

theorem deserialize_cons (b0 b1 b2 b3 b4 b5 b6 b7 b8 b9 b10 b11 : Nat) (rest d : List Nat)
    (hd : readBytes (b0 :: b1 :: b2 :: b3 :: b4 :: b5 :: b6 :: b7 :: b8 :: b9 :: b10 :: b11 :: rest)
        12 b4 = some d) :
    deserialize (b0 :: b1 :: b2 :: b3 :: b4 :: b5 :: b6 :: b7 :: b8 :: b9 :: b10 :: b11 :: rest) =
      some { seq := b0 + b1 * 256, session := b2, opcode := b3, size := b4,
             reqOpcode := some b5, burstComplete := b6,
             offset := some (b8 + b9 * 256 + b10 * 65536 + b11 * 16777216), data := d } := by
  simp [deserialize, readUInt8, readUInt16LE, readUInt32LE, hd]

/-- C1: for every payload whose `size` field equals its data length, with
`data.length ≤ 251`, with `reqOpcode` and `offset` present, and whose
fields are in range of their wire types, deserializing the serialization
returns the payload unchanged. -/
theorem serialize_deserialize_roundtrip
    (p : FileTransferProtocolPayload) (r o : Nat)
    (hsz : p.size = p.data.length) (hlen : p.data.length ≤ 251)
    (hreq : p.reqOpcode = some r) (hoff : p.offset = some o)
    (hseq : p.seq < 65536) (hses : p.session < 256) (hop : p.opcode < 256)
    (hr : r < 256) (hbc : p.burstComplete < 256) (ho : o < 4294967296)
    (hd : ∀ b ∈ p.data, b < 256) :
    (serialize p).bind deserialize = some p := by
  obtain ⟨seq, session, opcode, size, reqOpcode, burstComplete, offset, data⟩ := p
  simp only at hsz hlen hreq hoff hseq hses hop hbc hd
  subst hsz hreq hoff
  have h16 : writeUInt16LE seq = some [seq % 256, seq / 256] := by
    unfold writeUInt16LE; rw [if_pos (by omega)]
  have hsesW : writeUInt8 session = some [session] := by
    unfold writeUInt8; rw [if_pos (by omega)]
  have hopW : writeUInt8 opcode = some [opcode] := by
    unfold writeUInt8; rw [if_pos (by omega)]
  have hszW : writeUInt8 data.length = some [data.length] := by
    unfold writeUInt8; rw [if_pos (by omega)]
  have hreqW : writeUInt8 r = some [r] := by
    unfold writeUInt8; rw [if_pos (by omega)]
  have hbcW : writeUInt8 burstComplete = some [burstComplete] := by
    unfold writeUInt8; rw [if_pos (by omega)]
  have h32 : writeUInt32LE o = some [o % 256, o / 256 % 256, o / 65536 % 256, o / 16777216 % 256] := by
    unfold writeUInt32LE; rw [if_pos (by omega)]
  have hwb : writeBytes data = some data := writeBytes_of_bytes data hd
  have hser : serialize ⟨seq, session, opcode, data.length, some r, burstComplete, some o, data⟩ =
      some (seq % 256 :: seq / 256 :: session :: opcode :: data.length :: r :: burstComplete :: 0 ::
        o % 256 :: o / 256 % 256 :: o / 65536 % 256 :: o / 16777216 % 256 :: data) := by
    simp [serialize, h16, hsesW, hopW, hszW, hreqW, hbcW, h32, hwb]
  rw [hser]
  have hrb : readBytes (seq % 256 :: seq / 256 :: session :: opcode :: data.length :: r ::
      burstComplete :: 0 :: o % 256 :: o / 256 % 256 :: o / 65536 % 256 :: o / 16777216 % 256 ::
      data) 12 data.length = some data := by
    have h := readBytes_append data [seq % 256, seq / 256, session, opcode, data.length, r,
      burstComplete, 0, o % 256, o / 256 % 256, o / 65536 % 256, o / 16777216 % 256]
    simpa using h
  show deserialize (seq % 256 :: seq / 256 :: session :: opcode :: data.length :: r ::
      burstComplete :: 0 :: o % 256 :: o / 256 % 256 :: o / 65536 % 256 :: o / 16777216 % 256 ::
      data) = some ⟨seq, session, opcode, data.length, some r, burstComplete, some o, data⟩
  rw [deserialize_cons (seq % 256) (seq / 256) session opcode data.length r burstComplete 0
    (o % 256) (o / 256 % 256) (o / 65536 % 256) (o / 16777216 % 256) data data hrb]
  have e1 : seq % 256 + seq / 256 * 256 = seq := by omega
  have e2 : o % 256 + o / 256 % 256 * 256 + o / 65536 % 256 * 65536 +
      o / 16777216 % 256 * 16777216 = o := by omega
  rw [e1, e2]

/-- A concrete payload witnessing the round-trip theorem's hypotheses. -/
def roundtripWitness : FileTransferProtocolPayload :=
  { seq := 258, session := 1, opcode := 3, size := 2, reqOpcode := some 0,
    burstComplete := 0, offset := some 70000, data := [65, 66] }

theorem serialize_deserialize_roundtrip_witness :
    (serialize roundtripWitness).bind deserialize = some roundtripWitness :=
  serialize_deserialize_roundtrip roundtripWitness 0 70000 (by decide) (by decide) (by decide)
    (by decide) (by decide) (by decide) (by decide) (by decide) (by decide) (by decide) (by decide)

theorem getElem?_exists_of_lt {buf : List Nat} {i : Nat} (h : i < buf.length) :
    ∃ v, buf[i]? = some v := ⟨buf[i], List.getElem?_eq_getElem h⟩

theorem readUInt32LE_some_le {buf : List Nat} {off w : Nat} (h : readUInt32LE buf off = some w) :
    off + 4 ≤ buf.length := by
  cases h0 : buf[off]? with
  | none => simp [readUInt32LE, h0] at h
  | some b0 =>
  cases h1 : buf[off + 1]? with
  | none => simp [readUInt32LE, h0, h1] at h
  | some b1 =>
  cases h2 : buf[off + 2]? with
  | none => simp [readUInt32LE, h0, h1, h2] at h
  | some b2 =>
  cases h3 : buf[off + 3]? with
  | none => simp [readUInt32LE, h0, h1, h2, h3] at h
  | some b3 =>
    have := getElem?_some_lt h3
    omega

theorem deserialize_some_bound {buffer : List Nat} {p : FileTransferProtocolPayload}
    (h : deserialize buffer = some p) :
    buffer[4]? = some p.size ∧ 12 + p.size ≤ buffer.length := by
  cases h4 : buffer[4]? with
  | none => simp [deserialize, readUInt8, h4] at h
  | some size =>
  cases h16 : readUInt16LE buffer 0 with
  | none => simp [deserialize, readUInt8, h4, h16] at h
  | some sq =>
  cases h2 : buffer[2]? with
  | none => simp [deserialize, readUInt8, h4, h16, h2] at h
  | some v2 =>
  cases h3 : buffer[3]? with
  | none => simp [deserialize, readUInt8, h4, h16, h2, h3] at h
  | some v3 =>
  cases h5 : buffer[5]? with
  | none => simp [deserialize, readUInt8, h4, h16, h2, h3, h5] at h
  | some v5 =>
  cases h6 : buffer[6]? with
  | none => simp [deserialize, readUInt8, h4, h16, h2, h3, h5, h6] at h
  | some v6 =>
  cases h8 : readUInt32LE buffer 8 with
  | none => simp [deserialize, readUInt8, h4, h16, h2, h3, h5, h6, h8] at h
  | some v8 =>
  cases hrb : readBytes buffer 12 size with
  | none => simp [deserialize, readUInt8, h4, h16, h2, h3, h5, h6, h8, hrb] at h
  | some d =>
    simp only [deserialize, readUInt8, h4, h16, h2, h3, h5, h6, h8, hrb,
      Option.some_bind, Option.pure_def, Option.some.injEq, Option.bind_eq_bind] at h
    subst h
    dsimp only
    refine ⟨rfl, ?_⟩
    have hhead := readUInt32LE_some_le h8
    rcases readBytes_some_le buffer size 12 d hrb with h0 | hle
    · subst h0; omega
    · omega

/-- C9: payload decoding fails for every buffer shorter than `12 + size`
(where `size` is the byte stored at offset 4), and for every buffer of
length at least `12 + size` it succeeds and copies exactly `size` bytes
from offset 12 into the `data` field. -/
theorem deserialize_size_guard :
    (∀ (buffer : List Nat) (size : Nat), buffer[4]? = some size →
      buffer.length < 12 + size → deserialize buffer = none) ∧
    (∀ (buffer : List Nat) (size : Nat), buffer[4]? = some size →
      12 + size ≤ buffer.length →
      ∃ p, deserialize buffer = some p ∧ p.size = size ∧
        p.data = (buffer.drop 12).take size ∧ p.data.length = size) := by
  constructor
  · intro buffer size h4 hlt
    cases hdes : deserialize buffer with
    | none => rfl
    | some p =>
      exfalso
      obtain ⟨h4w, hbound⟩ := deserialize_some_bound hdes
      rw [h4] at h4w
      have : size = p.size := by injection h4w
      omega
  · intro buffer size h4 hge
    obtain ⟨v0, g0⟩ := getElem?_exists_of_lt (show 0 < buffer.length by omega)
    obtain ⟨v1, g1⟩ := getElem?_exists_of_lt (show 1 < buffer.length by omega)
    obtain ⟨v2, g2⟩ := getElem?_exists_of_lt (show 2 < buffer.length by omega)
    obtain ⟨v3, g3⟩ := getElem?_exists_of_lt (show 3 < buffer.length by omega)
    obtain ⟨v5, g5⟩ := getElem?_exists_of_lt (show 5 < buffer.length by omega)
    obtain ⟨v6, g6⟩ := getElem?_exists_of_lt (show 6 < buffer.length by omega)
    obtain ⟨v8, g8⟩ := getElem?_exists_of_lt (show 8 < buffer.length by omega)
    obtain ⟨v9, g9⟩ := getElem?_exists_of_lt (show 9 < buffer.length by omega)
    obtain ⟨v10, g10⟩ := getElem?_exists_of_lt (show 10 < buffer.length by omega)
    obtain ⟨v11, g11⟩ := getElem?_exists_of_lt (show 11 < buffer.length by omega)
    have h16 : readUInt16LE buffer 0 = some (v0 + v1 * 256) := by
      simp [readUInt16LE, g0, g1]
    have h32 : readUInt32LE buffer 8 = some (v8 + v9 * 256 + v10 * 65536 + v11 * 16777216) := by
      simp [readUInt32LE, g8, g9, g10, g11]
    have hrb : readBytes buffer 12 size = some ((buffer.drop 12).take size) :=
      readBytes_of_le buffer 12 size (by omega)
    refine ⟨{ seq := v0 + v1 * 256, session := v2, opcode := v3, size := size, reqOpcode := some v5, burstComplete := v6, offset := some (v8 + v9 * 256 + v10 * 65536 + v11 * 16777216), data := (buffer.drop 12).take size }, ?_, rfl, rfl, ?_⟩
    · simp [deserialize, readUInt8, h4, h16, g2, g3, g5, g6, h32, hrb]
    · show ((buffer.drop 12).take size).length = size
      rw [List.length_take, List.length_drop]
      omega

/-- Concrete buffers witnessing both halves of the size-guard theorem:
a 12-byte buffer whose `size` byte is 3 (too short), and a 14-byte buffer
whose `size` byte is 2 (long enough). -/
theorem deserialize_size_guard_witness :
    deserialize [0, 0, 0, 0, 3, 0, 0, 0, 0, 0, 0, 0] = none ∧
    (∃ p, deserialize [0, 0, 0, 0, 2, 0, 0, 0, 0, 0, 0, 0, 7, 8] = some p ∧ p.size = 2 ∧
      p.data = (([0, 0, 0, 0, 2, 0, 0, 0, 0, 0, 0, 0, 7, 8] : List Nat).drop 12).take 2 ∧
      p.data.length = 2) :=
  ⟨deserialize_size_guard.1 [0, 0, 0, 0, 3, 0, 0, 0, 0, 0, 0, 0] 3 (by simp) (by simp),
   deserialize_size_guard.2 [0, 0, 0, 0, 2, 0, 0, 0, 0, 0, 0, 0, 7, 8] 2 (by simp) (by simp)⟩

/-! ### Directory listing decoder (`MavFTPDirectoryListingParser.parse`) -/

inductive MavFTPDirectoryListingEntryType where
  | file
  | directory
  deriving DecidableEq

/-- A decoded directory entry (`MavFTPDirectoryListingEntry`).
`size` is `none` for directories; for files it is the `parseInt` of the
accumulated size string (`none` also standing for JavaScript's `NaN`
when that string holds no digits). -/
structure MavFTPDirectoryListingEntry where
  type : MavFTPDirectoryListingEntryType
  name : String
  size : Option Nat
  deriving DecidableEq

/-- The mutable record `entry = { type: '', name: '', size: '' }` that the
parser accumulates into; all three fields are strings as in the source. -/
structure DirEntryAcc where
  type : String
  name : String
  size : String
  deriving DecidableEq

/-- The longest leading run of ASCII digits of a character list. -/
def leadingDigits : List Char → List Char
  | [] => []
  | c :: rest => if c.isDigit then c :: leadingDigits rest else []

def digitsToNat : List Char → Nat → Nat
  | [], acc => acc
  | c :: rest, acc => digitsToNat rest (acc * 10 + (c.toNat - 48))

/-- JavaScript's `parseInt`, restricted to the strings this parser builds:
the leading digit run is converted; an empty digit run gives `NaN`,
modelled as `none`. -/
def parseIntJS (s : String) : Option Nat :=
  match leadingDigits s.toList with
  | [] => none
  | ds => some (digitsToNat ds 0)

/-- The `STORE` action: `entry.type` was set to `'file'` or `'directory'`
before this state is reachable; file entries parse the accumulated size
string, directory entries store `null`. -/
def storeEntry (e : DirEntryAcc) : MavFTPDirectoryListingEntry :=
  { type := if e.type = "file" then .file else .directory,
    name := e.name,
    size := if e.type = "file" then parseIntJS e.size else none }

/-- The state machine loop of `MavFTPDirectoryListingParser.parse`,
mirroring the `for`/`switch` of the source byte for byte.  States are the
numeric values of `MavFTPDirectoryListingParserState` (`TYPE = 0`,
`FILE_NAME = 1`, `SIZE = 2`, `DIR_NAME = 3`, `STORE = 5`).  Note that in
the source the `STORE` arm pushes the finished entry and resets
`state = 0` without examining `data[i]`, so the byte scanned during the
`STORE` step is consumed blindly; the model reproduces that. -/
def parseGo : List Nat → Nat → DirEntryAcc → List MavFTPDirectoryListingEntry →
    Except String (List MavFTPDirectoryListingEntry)
  | [], _, _, result => .ok result
  | b :: rest, state, entry, result =>
    if state = 0 then
      if b = 70 then parseGo rest 1 { entry with type := "file" } result
      else if b = 68 then parseGo rest 3 { entry with type := "directory" } result
      else .error ("Unknown entry type: " ++ toString b)
    else if state = 1 then
      if b = 9 then parseGo rest 2 entry result
      else parseGo rest 1 { entry with name := entry.name.push (Char.ofNat b) } result
    else if state = 2 then
      if b = 0 then parseGo rest 5 entry result
      else parseGo rest 2 { entry with size := entry.size.push (Char.ofNat b) } result
    else if state = 3 then
      if b = 0 then parseGo rest 5 entry result
      else parseGo rest 3 { entry with name := entry.name.push (Char.ofNat b) } result
    else if state = 5 then
      parseGo rest 0 ⟨"", "", ""⟩ (result ++ [storeEntry entry])
    else
      parseGo rest state entry result

/-- `MavFTPDirectoryListingParser.parse`: scan the whole byte string,
starting in state `TYPE` with an empty accumulator; a thrown
`Unknown entry type` error is the `.error` case. -/
def parse (data : List Nat) : Except String (List MavFTPDirectoryListingEntry) :=
  parseGo data 0 ⟨"", "", ""⟩ []

/-- The byte string `"F" ++ "file.txt" ++ TAB ++ "1234" ++ NUL ++ "D" ++ "logs" ++ NUL`. -/
def listingInput : List Nat :=
  [70, 102, 105, 108, 101, 46, 116, 120, 116, 9, 49, 50, 51, 52, 0, 68, 108, 111, 103, 115, 0]

/-- C2 (evaluation at the failing input): parsing the two-record listing
does not return the two entries; the `STORE` step blindly consumes the
`'D'` (68) byte that opens the second record, the following `'l'` (108)
byte is dispatched in state `TYPE`, and the parser throws
`Unknown entry type: 108`. -/
theorem parse_listing_throws :
    parse listingInput = .error "Unknown entry type: 108" := rfl

/-! ### Session engine (`MavFTP`)

The asynchronous parts are embedded by passing the observed responses
explicitly: a single exchange takes an `Option FileTransferProtocolPayload`
(`some r` = the next `ftp` event carried `r`; `none` = every wait timed
out and the retry budget was exhausted), and looping operations take a
list of such outcomes, one per exchange.  Each operation returns the
call's result, the final engine state, and the list of request payloads
handed to the transport. -/

/-- The mutable `session`/`sequence` fields of a `MavFTP` instance. -/
structure MavFTPState where
  session : Nat
  sequence : Nat
  deriving DecidableEq

/-- Engine state right after the constructor ran: `session = 1`,
`sequence = 0`. -/
def initialState : MavFTPState := { session := 1, sequence := 0 }

/-- `MavFTP.packet(opcode, data, offset)` for `Uint8Array`/`string` data:
`size` is the data length, `seq`/`session` come from the engine state,
`reqOpcode` stays `undefined`, `burstComplete` is 0. -/
def packet (st : MavFTPState) (opcode : Nat) (data : List Nat) (offset : Nat) :
    FileTransferProtocolPayload :=
  { seq := st.sequence, session := st.session, opcode := opcode, size := data.length,
    reqOpcode := none, burstComplete := 0, offset := some offset, data := data }

/-- `MavFTP.packet(opcode, n, offset)` for numeric `data` (used by
`readFile`): `size := n` and an empty data array. -/
def packetNum (st : MavFTPState) (opcode : Nat) (n : Nat) (offset : Nat) :
    FileTransferProtocolPayload :=
  { seq := st.sequence, session := st.session, opcode := opcode, size := n,
    reqOpcode := none, burstComplete := 0, offset := some offset, data := [] }

/-- `FileTransferProtocolError[c]`: TypeScript's reverse enum lookup,
`none` (JavaScript `undefined`) outside 0–10. -/
def FileTransferProtocolErrorName (c : Nat) : Option String :=
  if c = 0 then some "None"
  else if c = 1 then some "Fail"
  else if c = 2 then some "FailErrno"
  else if c = 3 then some "InvalidDataSize"
  else if c = 4 then some "InvalidSession"
  else if c = 5 then some "NoSessionsAvailable"
  else if c = 6 then some "EOF"
  else if c = 7 then some "UnknownCommand"
  else if c = 8 then some "FileExists"
  else if c = 9 then some "FileProtected"
  else if c = 10 then some "FileNotFound"
  else none

/-- Message of `new Error(FileTransferProtocolError[data[0]])`: the table
name, or an empty message when `data[0]` is missing or unmapped. -/
def nakMessage (b : Option Nat) : String :=
  match b with
  | some c => (FileTransferProtocolErrorName c).getD ""
  | none => ""

/-- `MavFTP.handleError`: throws on a missing response; on a NAK
(opcode 129) throws `Filesystem error (2)` when the first data byte
equals 2 and the error-table name otherwise; everything else passes. -/
def handleError (response : Option FileTransferProtocolPayload) :
    Except String FileTransferProtocolPayload :=
  match response with
  | none => .error "no response"
  | some r =>
    if r.opcode = 129 then
      if r.data[0]? = some 2 then .error "Filesystem error (2)"
      else .error (nakMessage r.data[0]?)
    else .ok r

/-- The `while (retry > 0)` loop of `MavFTP.send`.  `outcomes k` is what
the `k`-th attempt observes (`some r`: a response event before the
timeout; `none`: a timeout).  On a timeout the budget is decremented as
in `--retry > 0`: if budget remains the identical `msg` is resent,
otherwise the call fails.  The returned list is every transmission the
transport observed. -/
def sendFrom (msg : FileTransferProtocolPayload)
    (outcomes : Nat → Option FileTransferProtocolPayload) (k : Nat)
    (st : MavFTPState) (sent : List FileTransferProtocolPayload) :
    Nat → Except String FileTransferProtocolPayload × MavFTPState ×
      List FileTransferProtocolPayload
  | 0 => (.error "Did not expect to land here...", st, sent)
  | retry + 1 =>
    match outcomes k with
    | some r => (.ok r, { st with sequence := r.seq }, sent ++ [msg])
    | none =>
      if retry > 0 then sendFrom msg outcomes (k + 1) st (sent ++ [msg]) retry
      else (.error "Sending MavFTP message failed", st, sent ++ [msg])

/-- `MavFTP.send(msg, timeout, retry)`: `this.sequence++` runs before the
loop; on a response the engine adopts `response.seq`. -/
def send (msg : FileTransferProtocolPayload)
    (outcomes : Nat → Option FileTransferProtocolPayload) (retry : Nat)
    (st : MavFTPState) :
    Except String FileTransferProtocolPayload × MavFTPState ×
      List FileTransferProtocolPayload :=
  sendFrom msg outcomes 0 { st with sequence := st.sequence + 1 } [] retry

theorem sendFrom_all_timeouts (msg : FileTransferProtocolPayload) (st : MavFTPState) :
    ∀ (r : Nat), 1 ≤ r → ∀ (k : Nat) (sent : List FileTransferProtocolPayload),
      sendFrom msg (fun _ => none) k st sent r =
        (.error "Sending MavFTP message failed", st, sent ++ List.replicate r msg) := by
  intro r
  induction r with
  | zero => intro h; omega
  | succ n ih =>
    intro _ k sent
    simp only [sendFrom]
    by_cases hn : n > 0
    · rw [if_pos hn, ih (by omega) (k + 1) (sent ++ [msg])]
      simp [List.replicate_succ, List.append_assoc]
    · rw [if_neg hn]
      have hz : n = 0 := by omega
      subst hz
      simp [List.replicate]

/-- C4: when every attempt of an exchange times out, `send` fails with the
exchange-failed error and the transport observes exactly `retry`
transmissions, every one the identical payload (same bytes, same
sequence number); the engine keeps only its speculative `sequence + 1`. -/
theorem send_all_timeouts (msg : FileTransferProtocolPayload) (retry : Nat)
    (st : MavFTPState) (h : 1 ≤ retry) :
    send msg (fun _ => none) retry st =
      (.error "Sending MavFTP message failed", { st with sequence := st.sequence + 1 },
       List.replicate retry msg) := by
  unfold send
  rw [sendFrom_all_timeouts msg { st with sequence := st.sequence + 1 } retry h 0 []]
  simp

theorem send_all_timeouts_witness :
    send (packet initialState 3 [47] 0) (fun _ => none) 6 initialState =
      (.error "Sending MavFTP message failed", { session := 1, sequence := 1 },
       List.replicate 6 (packet initialState 3 [47] 0)) := by
  rw [send_all_timeouts (packet initialState 3 [47] 0) 6 initialState (by omega)]
  rfl

theorem sendFrom_ok_seq (msg : FileTransferProtocolPayload)
    (outcomes : Nat → Option FileTransferProtocolPayload) :
    ∀ (r k : Nat) (st : MavFTPState) (sent log : List FileTransferProtocolPayload)
      (res : FileTransferProtocolPayload) (st' : MavFTPState),
      sendFrom msg outcomes k st sent r = (.ok res, st', log) → st'.sequence = res.seq := by
  intro r
  induction r with
  | zero =>
    intro k st sent log res st' h
    simp [sendFrom] at h
  | succ n ih =>
    intro k st sent log res st' h
    cases ho : outcomes k with
    | some resp =>
      simp only [sendFrom, ho, Prod.mk.injEq, Except.ok.injEq] at h
      obtain ⟨h1, h2, -⟩ := h
      subst h1
      subst h2
      rfl
    | none =>
      simp only [sendFrom, ho] at h
      by_cases hn : n > 0
      · rw [if_pos hn] at h
        exact ih (k + 1) st (sent ++ [msg]) log res st' h
      · rw [if_neg hn] at h
        simp at h

/-- C6: after every successful exchange the engine's stored sequence
number equals the `seq` field of the response, regardless of the
speculative value the engine sent. -/
theorem send_adopts_response_seq (msg : FileTransferProtocolPayload)
    (outcomes : Nat → Option FileTransferProtocolPayload) (retry : Nat) (st : MavFTPState)
    (res : FileTransferProtocolPayload) (st' : MavFTPState)
    (log : List FileTransferProtocolPayload)
    (h : send msg outcomes retry st = (.ok res, st', log)) :
    st'.sequence = res.seq :=
  sendFrom_ok_seq msg outcomes retry 0 { st with sequence := st.sequence + 1 } [] log res st' h

/-- A concrete response used by witnesses: an ACK with `seq = 42`. -/
def seqResp42 : FileTransferProtocolPayload :=
  { seq := 42, session := 9, opcode := 128, size := 0, reqOpcode := some 4,
    burstComplete := 0, offset := some 0, data := [] }

theorem send_adopts_response_seq_witness :
    (send (packet initialState 4 [64] 0) (fun _ => some seqResp42) 6 initialState).2.1.sequence =
      seqResp42.seq :=
  send_adopts_response_seq (packet initialState 4 [64] 0) (fun _ => some seqResp42) 6
    initialState seqResp42 { session := 1, sequence := 42 }
    [packet initialState 4 [64] 0] rfl

/-! ### Engine operations

Each operation below mirrors one `async` method of `MavFTP`.  A single
exchange is modelled by its observed outcome (`some r` = response event,
`none` = retries exhausted, surfacing `send`'s failure); looping
operations consume a list of outcomes, one per exchange.  The triple
returned is (result, final state, requests handed to the transport). -/

/-- One `await this.send(msg)` step: speculative `sequence + 1`, then
either the response (whose `seq` is adopted) or `send`'s failure. -/
def exchangeOutcome (st : MavFTPState) (outcome : Option FileTransferProtocolPayload) :
    Except String FileTransferProtocolPayload × MavFTPState :=
  match outcome with
  | some r => (.ok r, { st with sequence := r.seq })
  | none => (.error "Sending MavFTP message failed", { st with sequence := st.sequence + 1 })

/-- `MavFTP.resetSessions()`: sends a RESETSESSION (2) request,
runs `handleError`, and sets `session = 2` only when the response opcode
is ACK (128). -/
def resetSessionsS (outcome : Option FileTransferProtocolPayload) (st : MavFTPState) :
    Except String FileTransferProtocolPayload × MavFTPState ×
      List FileTransferProtocolPayload :=
  let msg := packet st 2 [] 0
  match exchangeOutcome st outcome with
  | (.error e, st1) => (.error e, st1, [msg])
  | (.ok response, st1) =>
    match handleError (some response) with
    | .error e => (.error e, st1, [msg])
    | .ok _ =>
      if response.opcode = 128 then (.ok response, { st1 with session := 2 }, [msg])
      else (.ok response, st1, [msg])

/-- The file-size computation of `openFileRO`:
`response.size > 0 ? Buffer.from(response.data).readUInt32LE(0) : 0`,
where the read fails (Node throws `ERR_OUT_OF_RANGE`) on fewer than 4
data bytes. -/
def openFileROSize (response : FileTransferProtocolPayload) : Option Nat :=
  if response.size > 0 then readUInt32LE response.data 0 else some 0

/-- `MavFTP.openFileRO(path)`: sends OPENFILERO (4), runs `handleError`,
adopts the response's `session`, then computes the file size. -/
def openFileROS (path : List Nat) (outcome : Option FileTransferProtocolPayload)
    (st : MavFTPState) :
    Except String (FileTransferProtocolPayload × Nat) × MavFTPState ×
      List FileTransferProtocolPayload :=
  let msg := packet st 4 path 0
  match exchangeOutcome st outcome with
  | (.error e, st1) => (.error e, st1, [msg])
  | (.ok response, st1) =>
    match handleError (some response) with
    | .error e => (.error e, st1, [msg])
    | .ok _ =>
      let st2 := { st1 with session := response.session }
      match openFileROSize response with
      | none => (.error "out of range", st2, [msg])
      | some size => (.ok (response, size), st2, [msg])

/-- `MavFTP.terminateSession()`: sends TERMINATESESSION (1), runs
`handleError`, then sets `session = 0`. -/
def terminateSessionS (outcome : Option FileTransferProtocolPayload) (st : MavFTPState) :
    Except String FileTransferProtocolPayload × MavFTPState ×
      List FileTransferProtocolPayload :=
  let msg := packet st 1 [] 0
  match exchangeOutcome st outcome with
  | (.error e, st1) => (.error e, st1, [msg])
  | (.ok response, st1) =>
    match handleError (some response) with
    | .error e => (.error e, st1, [msg])
    | .ok _ => (.ok response, { st1 with session := 0 }, [msg])

/-- The `data[0]` part of the message
`Unable to read contents of file: ...` (`undefined` when data is empty). -/
def optNatStr (b : Option Nat) : String :=
  match b with
  | some c => toString c
  | none => "undefined"

/-- The `while (true)` loop of `MavFTP.readFile`: each iteration sends a
READFILE (5) request for up to 230 bytes at the running `offset`; an ACK
appends its data and advances `offset`; a non-ACK with first data byte
EOF (6) returns the accumulated bytes; any other response fails. -/
def readFileGo : List (Option FileTransferProtocolPayload) → MavFTPState →
    List Nat → Nat →
    Except String (List Nat) × MavFTPState × List FileTransferProtocolPayload
  | [], st, _acc, offset =>
    (.error "Sending MavFTP message failed",
     { st with sequence := st.sequence + 1 }, [packetNum st 5 230 offset])
  | outcome :: rest, st, acc, offset =>
    let msg := packetNum st 5 230 offset
    match exchangeOutcome st outcome with
    | (.error e, st1) => (.error e, st1, [msg])
    | (.ok response, st1) =>
      if response.opcode = 128 then
        let next := readFileGo rest st1 (acc ++ response.data) (offset + response.data.length)
        (next.1, next.2.1, msg :: next.2.2)
      else if response.data[0]? = some 6 then
        (.ok acc, st1, [msg])
      else
        (.error ("Unable to read contents of file: " ++ optNatStr response.data[0]?),
         st1, [msg])

/-- The `while (true)` loop of `MavFTP.listDirectory(folder)`: each
iteration sends a LISTDIRECTORY (3) request whose `offset` is
`result.length`; an ACK's data is decoded by the parser and appended;
a non-ACK whose first data byte is not EOF (6) fails; EOF breaks the
loop and the collected entries are returned. -/
def listDirectoryGo (folder : List Nat) :
    List (Option FileTransferProtocolPayload) → MavFTPState →
    List MavFTPDirectoryListingEntry → List FileTransferProtocolPayload →
    Except String (List MavFTPDirectoryListingEntry) × MavFTPState ×
      List FileTransferProtocolPayload
  | [], st, result, log =>
    (.error "Sending MavFTP message failed", { st with sequence := st.sequence + 1 },
     log ++ [packet st 3 folder result.length])
  | outcome :: rest, st, result, log =>
    let msg := packet st 3 folder result.length
    match exchangeOutcome st outcome with
    | (.error e, st1) => (.error e, st1, log ++ [msg])
    | (.ok response, st1) =>
      if response.opcode = 128 then
        match parse response.data with
        | .ok entries => listDirectoryGo folder rest st1 (result ++ entries) (log ++ [msg])
        | .error e => (.error e, st1, log ++ [msg])
      else if response.data[0]? ≠ some 6 then
        (.error (nakMessage response.data[0]?), st1, log ++ [msg])
      else
        (.ok result, st1, log ++ [msg])

/-- `MavFTP.listDirectory(folder)` started with an empty entry list. -/
def listDirectoryS (folder : List Nat)
    (script : List (Option FileTransferProtocolPayload)) (st : MavFTPState) :
    Except String (List MavFTPDirectoryListingEntry) × MavFTPState ×
      List FileTransferProtocolPayload :=
  listDirectoryGo folder script st [] []

/-- `MavFTP.downloadFile(filename)`: open, then `try { read } finally
{ terminate }`.  JavaScript's `try`/`finally` semantics: the `finally`
block always runs, and if it throws, its error supersedes the `try`
block's outcome (success or failure alike). -/
def downloadFileS (filename : List Nat)
    (openOutcome : Option FileTransferProtocolPayload)
    (readScript : List (Option FileTransferProtocolPayload))
    (termOutcome : Option FileTransferProtocolPayload) (st : MavFTPState) :
    Except String (List Nat) × MavFTPState × List FileTransferProtocolPayload :=
  match openFileROS filename openOutcome st with
  | (.error e, st1, openLog) => (.error e, st1, openLog)
  | (.ok _, st1, openLog) =>
    let rd := readFileGo readScript st1 [] 0
    let tm := terminateSessionS termOutcome rd.2.1
    let result : Except String (List Nat) :=
      match tm.1 with
      | .error e => .error e
      | .ok _ => rd.1
    (result, tm.2.1, openLog ++ rd.2.2 ++ tm.2.2)

/-- C8: the session id lifecycle — 1 at construction; 2 after a successful
`resetSessions` (whose response, per the protocol, is ACK or NAK); the
server-provided `session` field after a successful `openFileRO`; 0 after a
successful `terminateSession`. -/
theorem sessionId_lifecycle :
    initialState.session = 1 ∧
    (∀ (out : Option FileTransferProtocolPayload) (st : MavFTPState)
       (r : FileTransferProtocolPayload) (st' : MavFTPState)
       (log : List FileTransferProtocolPayload),
       resetSessionsS out st = (.ok r, st', log) →
       r.opcode = 128 ∨ r.opcode = 129 → st'.session = 2) ∧
    (∀ (path : List Nat) (out : Option FileTransferProtocolPayload) (st : MavFTPState)
       (r : FileTransferProtocolPayload) (size : Nat) (st' : MavFTPState)
       (log : List FileTransferProtocolPayload),
       openFileROS path out st = (.ok (r, size), st', log) → st'.session = r.session) ∧
    (∀ (out : Option FileTransferProtocolPayload) (st : MavFTPState)
       (r : FileTransferProtocolPayload) (st' : MavFTPState)
       (log : List FileTransferProtocolPayload),
       terminateSessionS out st = (.ok r, st', log) → st'.session = 0) := by
  refine ⟨rfl, ?_, ?_, ?_⟩
  · intro out st r st' log h hop
    cases out with
    | none => simp [resetSessionsS, exchangeOutcome] at h
    | some resp =>
      by_cases h129 : resp.opcode = 129
      · by_cases hd2 : resp.data[0]? = some 2 <;>
          simp [resetSessionsS, exchangeOutcome, handleError, h129, hd2] at h
      · by_cases hra : resp.opcode = 128
        · simp only [resetSessionsS, exchangeOutcome, handleError, if_neg h129, if_pos hra,
            Prod.mk.injEq, Except.ok.injEq] at h
          obtain ⟨-, h2, -⟩ := h
          subst h2
          rfl
        · simp only [resetSessionsS, exchangeOutcome, handleError, if_neg h129, if_neg hra,
            Prod.mk.injEq, Except.ok.injEq] at h
          obtain ⟨h1, -, -⟩ := h
          subst h1
          rcases hop with ha | hn
          · exact absurd ha hra
          · exact absurd hn h129
  · intro path out st r size st' log h
    cases out with
    | none => simp [openFileROS, exchangeOutcome] at h
    | some resp =>
      by_cases h129 : resp.opcode = 129
      · by_cases hd2 : resp.data[0]? = some 2 <;>
          simp [openFileROS, exchangeOutcome, handleError, h129, hd2] at h
      · cases hsz : openFileROSize resp with
        | none =>
          simp [openFileROS, exchangeOutcome, handleError, h129, hsz] at h
        | some v =>
          simp only [openFileROS, exchangeOutcome, handleError, if_neg h129, hsz,
            Prod.mk.injEq, Except.ok.injEq] at h
          obtain ⟨⟨h1, -⟩, h2, -⟩ := h
          subst h1
          subst h2
          rfl
  · intro out st r st' log h
    cases out with
    | none => simp [terminateSessionS, exchangeOutcome] at h
    | some resp =>
      by_cases h129 : resp.opcode = 129
      · by_cases hd2 : resp.data[0]? = some 2 <;>
          simp [terminateSessionS, exchangeOutcome, handleError, h129, hd2] at h
      · simp only [terminateSessionS, exchangeOutcome, handleError, if_neg h129,
          Prod.mk.injEq, Except.ok.injEq] at h
        obtain ⟨-, h2, -⟩ := h
        subst h2
        rfl

/-- An ACK reply to an OPENFILERO request, carrying server session 9. -/
def openAckResp : FileTransferProtocolPayload :=
  { seq := 7, session := 9, opcode := 128, size := 0, reqOpcode := some 4,
    burstComplete := 0, offset := some 0, data := [] }

theorem sessionId_lifecycle_witness :
    (resetSessionsS (some openAckResp) initialState).2.1.session = 2 ∧
    (openFileROS [] (some openAckResp) initialState).2.1.session = 9 ∧
    (terminateSessionS (some openAckResp) initialState).2.1.session = 0 :=
  ⟨sessionId_lifecycle.2.1 (some openAckResp) initialState openAckResp
      { session := 2, sequence := 7 } [packet initialState 2 [] 0] rfl (Or.inl rfl),
   sessionId_lifecycle.2.2.1 [] (some openAckResp) initialState openAckResp 0
      { session := 9, sequence := 7 } [packet initialState 4 [] 0] rfl,
   sessionId_lifecycle.2.2.2 (some openAckResp) initialState openAckResp
      { session := 0, sequence := 7 } [packet initialState 1 [] 0] rfl⟩

/-- C7: a NAK whose first data byte is 10 surfaces as the `FileNotFound`
error; a NAK whose first data byte is 2 surfaces as the filesystem-category
error `Filesystem error (2)`, which differs from the generic error-table
lookup for code 2 (`FailErrno`). -/
theorem nak_error_mapping :
    (∀ r : FileTransferProtocolPayload, r.opcode = 129 → r.data[0]? = some 10 →
      handleError (some r) = .error "FileNotFound") ∧
    (∀ r : FileTransferProtocolPayload, r.opcode = 129 → r.data[0]? = some 2 →
      handleError (some r) = .error "Filesystem error (2)") ∧
    "Filesystem error (2)" ≠ nakMessage (some 2) := by
  refine ⟨?_, ?_, by decide⟩
  · intro r h129 hd
    simp [handleError, h129, hd, nakMessage, FileTransferProtocolErrorName]
  · intro r h129 hd
    simp [handleError, h129, hd]

/-- A NAK carrying error code 10 (`FileNotFound`). -/
def nak10 : FileTransferProtocolPayload :=
  { seq := 3, session := 0, opcode := 129, size := 1, reqOpcode := some 4,
    burstComplete := 0, offset := some 0, data := [10] }

/-- A NAK carrying error code 2 (filesystem error). -/
def nak2 : FileTransferProtocolPayload :=
  { seq := 3, session := 0, opcode := 129, size := 2, reqOpcode := some 4,
    burstComplete := 0, offset := some 0, data := [2, 13] }

theorem nak_error_mapping_witness :
    handleError (some nak10) = .error "FileNotFound" ∧
    handleError (some nak2) = .error "Filesystem error (2)" :=
  ⟨nak_error_mapping.1 nak10 rfl rfl, nak_error_mapping.2.1 nak2 rfl rfl⟩

theorem readUInt32LE_isSome_iff (buf : List Nat) :
    (readUInt32LE buf 0).isSome ↔ 4 ≤ buf.length := by
  constructor
  · intro h
    obtain ⟨w, hw⟩ := Option.isSome_iff_exists.mp h
    have := readUInt32LE_some_le hw
    omega
  · intro h
    obtain ⟨v0, g0⟩ := getElem?_exists_of_lt (show 0 < buf.length by omega)
    obtain ⟨v1, g1⟩ := getElem?_exists_of_lt (show 1 < buf.length by omega)
    obtain ⟨v2, g2⟩ := getElem?_exists_of_lt (show 2 < buf.length by omega)
    obtain ⟨v3, g3⟩ := getElem?_exists_of_lt (show 3 < buf.length by omega)
    simp [readUInt32LE, g0, g1, g2, g3]

/-- C10: in `openFileRO`'s size computation, a zero `size` field reports 0
without touching the data; a nonzero `size` field reads a 32-bit
little-endian integer from the first 4 data bytes, which is in bounds
exactly when the response carries at least 4 data bytes — with 0–3 data
bytes the read is out of range and the computation fails. -/
theorem openFileRO_size_read (r : FileTransferProtocolPayload) :
    (r.size = 0 → openFileROSize r = some 0) ∧
    (0 < r.size → ((openFileROSize r).isSome ↔ 4 ≤ r.data.length)) ∧
    (0 < r.size → r.data.length < 4 → openFileROSize r = none) ∧
    (∀ b0 b1 b2 b3 rest, 0 < r.size → r.data = b0 :: b1 :: b2 :: b3 :: rest →
      openFileROSize r = some (b0 + b1 * 256 + b2 * 65536 + b3 * 16777216)) := by
  refine ⟨?_, ?_, ?_, ?_⟩
  · intro h
    simp [openFileROSize, h]
  · intro h
    rw [openFileROSize, if_pos h]
    exact readUInt32LE_isSome_iff r.data
  · intro h hlen
    rw [openFileROSize, if_pos h]
    cases hr : readUInt32LE r.data 0 with
    | none => rfl
    | some w =>
      have := readUInt32LE_some_le hr
      omega
  · intro b0 b1 b2 b3 rest h hdata
    rw [openFileROSize, if_pos h, hdata]
    simp [readUInt32LE]

/-- ACK responses exercising the size computation: `size = 0`; `size > 0`
with only 3 data bytes; `size > 0` with 4 data bytes. -/
def openAckNoSize : FileTransferProtocolPayload :=
  { seq := 1, session := 2, opcode := 128, size := 0, reqOpcode := some 4,
    burstComplete := 0, offset := some 0, data := [] }

def openAckShort : FileTransferProtocolPayload :=
  { seq := 1, session := 2, opcode := 128, size := 3, reqOpcode := some 4,
    burstComplete := 0, offset := some 0, data := [1, 2, 3] }

def openAckFull : FileTransferProtocolPayload :=
  { seq := 1, session := 2, opcode := 128, size := 4, reqOpcode := some 4,
    burstComplete := 0, offset := some 0, data := [4, 3, 2, 1] }

theorem openFileRO_size_read_witness :
    openFileROSize openAckNoSize = some 0 ∧
    openFileROSize openAckShort = none ∧
    openFileROSize openAckFull = some (4 + 3 * 256 + 2 * 65536 + 1 * 16777216) :=
  ⟨(openFileRO_size_read openAckNoSize).1 rfl,
   (openFileRO_size_read openAckShort).2.2.1 (by decide) (by decide),
   (openFileRO_size_read openAckFull).2.2.2 4 3 2 1 [] (by decide) rfl⟩

theorem terminateSessionS_log (out : Option FileTransferProtocolPayload) (st : MavFTPState) :
    (terminateSessionS out st).2.2 = [packet st 1 [] 0] := by
  cases out with
  | none => rfl
  | some resp =>
    cases hh : handleError (some resp) with
    | error e => simp [terminateSessionS, exchangeOutcome, hh]
    | ok x => simp [terminateSessionS, exchangeOutcome, hh]

/-- C3 (amended): after a successful open, `downloadFile` always issues a
terminate-session request (opcode 1) as its final transmission, even when
the read step fails; if the read fails and the terminate succeeds, the
read's error is surfaced; but if both the read and the terminate fail,
JavaScript's `try`/`finally` semantics make the terminate step's error
supersede the read error. -/
theorem downloadFile_session_hygiene :
    (∀ (filename : List Nat) (openOutcome : Option FileTransferProtocolPayload)
       (readScript : List (Option FileTransferProtocolPayload))
       (termOutcome : Option FileTransferProtocolPayload) (st : MavFTPState)
       (res : FileTransferProtocolPayload × Nat) (st1 : MavFTPState)
       (openLog : List FileTransferProtocolPayload),
       openFileROS filename openOutcome st = (.ok res, st1, openLog) →
       ∃ m, (downloadFileS filename openOutcome readScript termOutcome st).2.2.getLast? =
          some m ∧ m.opcode = 1) ∧
    (∀ (filename : List Nat) (openOutcome : Option FileTransferProtocolPayload)
       (readScript : List (Option FileTransferProtocolPayload))
       (termOutcome : Option FileTransferProtocolPayload) (st : MavFTPState)
       (res : FileTransferProtocolPayload × Nat) (st1 : MavFTPState)
       (openLog : List FileTransferProtocolPayload) (e : String) (st2 : MavFTPState)
       (rlog : List FileTransferProtocolPayload) (tresp : FileTransferProtocolPayload)
       (st3 : MavFTPState) (tlog : List FileTransferProtocolPayload),
       openFileROS filename openOutcome st = (.ok res, st1, openLog) →
       readFileGo readScript st1 [] 0 = (.error e, st2, rlog) →
       terminateSessionS termOutcome st2 = (.ok tresp, st3, tlog) →
       (downloadFileS filename openOutcome readScript termOutcome st).1 = .error e) ∧
    (∀ (filename : List Nat) (openOutcome : Option FileTransferProtocolPayload)
       (readScript : List (Option FileTransferProtocolPayload))
       (termOutcome : Option FileTransferProtocolPayload) (st : MavFTPState)
       (res : FileTransferProtocolPayload × Nat) (st1 : MavFTPState)
       (openLog : List FileTransferProtocolPayload) (e : String) (st2 : MavFTPState)
       (rlog : List FileTransferProtocolPayload) (e2 : String)
       (st3 : MavFTPState) (tlog : List FileTransferProtocolPayload),
       openFileROS filename openOutcome st = (.ok res, st1, openLog) →
       readFileGo readScript st1 [] 0 = (.error e, st2, rlog) →
       terminateSessionS termOutcome st2 = (.error e2, st3, tlog) →
       (downloadFileS filename openOutcome readScript termOutcome st).1 = .error e2) := by
  refine ⟨?_, ?_, ?_⟩
  · intro filename openOutcome readScript termOutcome st res st1 openLog hopen
    simp only [downloadFileS, hopen]
    rw [terminateSessionS_log]
    refine ⟨packet (readFileGo readScript st1 [] 0).2.1 1 [] 0, ?_, rfl⟩
    rw [List.getLast?_concat]
  · intro filename openOutcome readScript termOutcome st res st1 openLog e st2 rlog
      tresp st3 tlog hopen hread hterm
    simp only [downloadFileS, hopen, hread, hterm]
  · intro filename openOutcome readScript termOutcome st res st1 openLog e st2 rlog
      e2 st3 tlog hopen hread hterm
    simp only [downloadFileS, hopen, hread, hterm]

/-- A NAK failing a READFILE request with error code 1 (`Fail`). -/
def readNakFail : FileTransferProtocolPayload :=
  { seq := 8, session := 9, opcode := 129, size := 1, reqOpcode := some 5,
    burstComplete := 0, offset := some 0, data := [1] }

/-- An ACK reply to a TERMINATESESSION request. -/
def termAckResp : FileTransferProtocolPayload :=
  { seq := 9, session := 9, opcode := 128, size := 0, reqOpcode := some 1,
    burstComplete := 0, offset := some 0, data := [] }

/-- A NAK failing a TERMINATESESSION request with error code 4
(`InvalidSession`). -/
def termNakBad : FileTransferProtocolPayload :=
  { seq := 9, session := 9, opcode := 129, size := 1, reqOpcode := some 1,
    burstComplete := 0, offset := some 0, data := [4] }

/-- C3 (counterexample): a run in which the read step fails with
`Unable to read contents of file: 1` and the terminate step fails with
`InvalidSession`; `downloadFile` surfaces the terminate error, not the
read error, contradicting the claim that the read error is surfaced even
when both fail. -/
theorem downloadFile_read_error_clobbered :
    (downloadFileS [] (some openAckResp) [some readNakFail] (some termNakBad)
        initialState).1 = .error "InvalidSession" ∧
    (readFileGo [some readNakFail]
        (openFileROS [] (some openAckResp) initialState).2.1 [] 0).1 =
      .error "Unable to read contents of file: 1" ∧
    "InvalidSession" ≠ "Unable to read contents of file: 1" :=
  ⟨rfl, rfl, by decide⟩

theorem downloadFile_session_hygiene_witness :
    (∃ m, (downloadFileS [] (some openAckResp) [some readNakFail] (some termAckResp)
        initialState).2.2.getLast? = some m ∧ m.opcode = 1) ∧
    (downloadFileS [] (some openAckResp) [some readNakFail] (some termAckResp)
        initialState).1 = .error "Unable to read contents of file: 1" ∧
    (downloadFileS [] (some openAckResp) [some readNakFail] (some termNakBad)
        initialState).1 = .error "InvalidSession" :=
  ⟨downloadFile_session_hygiene.1 [] (some openAckResp) [some readNakFail]
      (some termAckResp) initialState (openAckResp, 0) { session := 9, sequence := 7 }
      [packet initialState 4 [] 0] rfl,
   downloadFile_session_hygiene.2.1 [] (some openAckResp) [some readNakFail]
      (some termAckResp) initialState (openAckResp, 0) { session := 9, sequence := 7 }
      [packet initialState 4 [] 0] "Unable to read contents of file: 1"
      { session := 9, sequence := 8 } [packetNum { session := 9, sequence := 7 } 5 230 0]
      termAckResp { session := 0, sequence := 9 }
      [packet { session := 9, sequence := 8 } 1 [] 0] rfl rfl rfl,
   downloadFile_session_hygiene.2.2 [] (some openAckResp) [some readNakFail]
      (some termNakBad) initialState (openAckResp, 0) { session := 9, sequence := 7 }
      [packet initialState 4 [] 0] "Unable to read contents of file: 1"
      { session := 9, sequence := 8 } [packetNum { session := 9, sequence := 7 } 5 230 0]
      "InvalidSession" { session := 9, sequence := 9 }
      [packet { session := 9, sequence := 8 } 1 [] 0] rfl rfl rfl⟩

theorem listDirectoryGo_pages (folder : List Nat) :
    ∀ (pages : List (FileTransferProtocolPayload × List MavFTPDirectoryListingEntry))
      (tail : List (Option FileTransferProtocolPayload)) (st : MavFTPState)
      (acc : List MavFTPDirectoryListingEntry) (log : List FileTransferProtocolPayload),
      (∀ pr ∈ pages, pr.1.opcode = 128 ∧ parse pr.1.data = .ok pr.2) →
      ∃ (st' : MavFTPState) (plog : List FileTransferProtocolPayload),
        listDirectoryGo folder (pages.map (fun pr => some pr.1) ++ tail) st acc log =
          listDirectoryGo folder tail st' (acc ++ (pages.map Prod.snd).flatten) (log ++ plog) ∧
        plog.length = pages.length ∧
        (∀ i, i < plog.length →
          ∃ m, plog[i]? = some m ∧ m.opcode = 3 ∧
            m.offset = some (acc.length + ((pages.take i).map Prod.snd).flatten.length)) := by
  intro pages
  induction pages with
  | nil =>
    intro tail st acc log _
    refine ⟨st, [], by simp, rfl, ?_⟩
    intro i hi
    simp at hi
  | cons pr rest ih =>
    intro tail st acc log hp
    obtain ⟨hop, hparse⟩ := hp pr (List.mem_cons_self pr rest)
    obtain ⟨st', plog', heq, hlen, hoffs⟩ := ih tail { st with sequence := pr.1.seq }
      (acc ++ pr.2) (log ++ [packet st 3 folder acc.length])
      (fun q hq => hp q (List.mem_cons_of_mem pr hq))
    refine ⟨st', packet st 3 folder acc.length :: plog', ?_, ?_, ?_⟩
    · have hstep : listDirectoryGo folder
          (some pr.1 :: (rest.map (fun pr => some pr.1) ++ tail)) st acc log =
          listDirectoryGo folder (rest.map (fun pr => some pr.1) ++ tail)
            { st with sequence := pr.1.seq } (acc ++ pr.2)
            (log ++ [packet st 3 folder acc.length]) := by
        simp only [listDirectoryGo, exchangeOutcome]
        rw [if_pos hop, hparse]
      rw [List.map_cons, List.cons_append, hstep, heq]
      simp only [List.map_cons, List.flatten_cons, List.append_assoc, List.singleton_append]
    · simp [hlen]
    · intro i hi
      cases i with
      | zero =>
        refine ⟨packet st 3 folder acc.length, by simp, rfl, ?_⟩
        simp [packet]
      | succ j =>
        have hj : j < plog'.length := by
          simp at hi
          omega
        obtain ⟨m, hm, hop3, hoff⟩ := hoffs j hj
        refine ⟨m, by simpa using hm, hop3, ?_⟩
        have harith : (acc ++ pr.2).length + ((rest.take j).map Prod.snd).flatten.length =
            acc.length + ((((pr :: rest).take (j + 1)).map Prod.snd).flatten).length := by
          simp [List.take_succ_cons, List.length_append]
          omega
        exact hoff.trans (congrArg some harith)

/-- C5: when the responses are a run of ACKs (each carrying parseable
listing data) followed by a NAK whose first data byte is EOF (6),
`listDirectory` sends its k-th request with `offset` equal to the number
of entries collected from the first k-1 ACKs, stops exactly at the EOF
NAK, and returns the concatenation of all decoded entries in receipt
order; a NAK whose first data byte is not EOF makes it fail instead. -/
theorem listDirectory_pagination :
    (∀ (folder : List Nat)
       (pages : List (FileTransferProtocolPayload × List MavFTPDirectoryListingEntry))
       (nak : FileTransferProtocolPayload) (st : MavFTPState),
       (∀ pr ∈ pages, pr.1.opcode = 128 ∧ parse pr.1.data = .ok pr.2) →
       nak.opcode ≠ 128 → nak.data[0]? = some 6 →
       ∃ (st' : MavFTPState) (log : List FileTransferProtocolPayload),
         listDirectoryS folder (pages.map (fun pr => some pr.1) ++ [some nak]) st =
           (.ok ((pages.map Prod.snd).flatten), st', log) ∧
         log.length = pages.length + 1 ∧
         (∀ i, i < log.length →
           ∃ m, log[i]? = some m ∧ m.opcode = 3 ∧
             m.offset = some (((pages.take i).map Prod.snd).flatten.length))) ∧
    (∀ (folder : List Nat)
       (pages : List (FileTransferProtocolPayload × List MavFTPDirectoryListingEntry))
       (nak : FileTransferProtocolPayload) (st : MavFTPState) (c : Nat),
       (∀ pr ∈ pages, pr.1.opcode = 128 ∧ parse pr.1.data = .ok pr.2) →
       nak.opcode ≠ 128 → nak.data[0]? = some c → c ≠ 6 →
       ∃ (st' : MavFTPState) (log : List FileTransferProtocolPayload),
         listDirectoryS folder (pages.map (fun pr => some pr.1) ++ [some nak]) st =
           (.error (nakMessage (some c)), st', log)) := by
  constructor
  · intro folder pages nak st hp hnak hd
    obtain ⟨st', plog, heq, hlen, hoffs⟩ :=
      listDirectoryGo_pages folder pages [some nak] st [] [] hp
    refine ⟨{ st' with sequence := nak.seq },
      plog ++ [packet st' 3 folder (pages.map Prod.snd).flatten.length], ?_, ?_, ?_⟩
    · rw [listDirectoryS, heq]
      simp only [listDirectoryGo, exchangeOutcome]
      rw [if_neg hnak, if_neg (by simp [hd])]
      simp
    · simp [hlen]
    · intro i hi
      have hplen : plog.length = pages.length := hlen
      by_cases hlt : i < plog.length
      · obtain ⟨m, hm, hop3, hoff⟩ := hoffs i hlt
        refine ⟨m, ?_, hop3, ?_⟩
        · rw [List.getElem?_append_left hlt]
          exact hm
        · simpa using hoff
      · have hieq : i = pages.length := by
          simp at hi
          omega
        refine ⟨packet st' 3 folder (pages.map Prod.snd).flatten.length, ?_, rfl, ?_⟩
        · rw [List.getElem?_append_right (by omega)]
          rw [hplen, hieq]
          simp
        · rw [hieq, List.take_length]
          rfl
  · intro folder pages nak st c hp hnak hd hc
    obtain ⟨st', plog, heq, hlen, hoffs⟩ :=
      listDirectoryGo_pages folder pages [some nak] st [] [] hp
    refine ⟨{ st' with sequence := nak.seq },
      plog ++ [packet st' 3 folder (pages.map Prod.snd).flatten.length], ?_⟩
    rw [listDirectoryS, heq]
    simp only [listDirectoryGo, exchangeOutcome]
    rw [if_neg hnak, if_pos (by simp [hd, hc]), hd]
    simp

/-- An ACK listing page whose data decodes (under the source's parser) to
the single entry `{file, "a", 12}`: the trailing byte 99 is the one the
`STORE` step consumes. -/
def pageAck : FileTransferProtocolPayload :=
  { seq := 5, session := 1, opcode := 128, size := 7, reqOpcode := some 3,
    burstComplete := 0, offset := some 0, data := [70, 97, 9, 49, 50, 0, 99] }

def entryA12 : MavFTPDirectoryListingEntry :=
  { type := .file, name := "a", size := some 12 }

/-- The NAK that ends a listing normally: first data byte EOF (6). -/
def eofNak : FileTransferProtocolPayload :=
  { seq := 6, session := 1, opcode := 129, size := 1, reqOpcode := some 3,
    burstComplete := 0, offset := some 0, data := [6] }

/-- A NAK failing a listing with error code 10. -/
def listNakBad : FileTransferProtocolPayload :=
  { seq := 6, session := 1, opcode := 129, size := 1, reqOpcode := some 3,
    burstComplete := 0, offset := some 0, data := [10] }

theorem listDirectory_pagination_witness :
    (∃ (st' : MavFTPState) (log : List FileTransferProtocolPayload),
      listDirectoryS [64] (([(pageAck, [entryA12])].map (fun pr => some pr.1)) ++ [some eofNak])
          initialState =
        (.ok (([(pageAck, [entryA12])].map Prod.snd).flatten), st', log) ∧
      log.length = 1 + 1 ∧
      (∀ i, i < log.length →
        ∃ m, log[i]? = some m ∧ m.opcode = 3 ∧
          m.offset = some ((([(pageAck, [entryA12])].take i).map Prod.snd).flatten.length))) ∧
    (∃ (st' : MavFTPState) (log : List FileTransferProtocolPayload),
      listDirectoryS [64] (([(pageAck, [entryA12])].map (fun pr => some pr.1)) ++ [some listNakBad])
          initialState =
        (.error (nakMessage (some 10)), st', log)) := by
  constructor
  · exact listDirectory_pagination.1 [64] [(pageAck, [entryA12])] eofNak initialState
      (by intro pr hpr; rw [List.mem_singleton] at hpr; subst hpr; exact ⟨rfl, rfl⟩)
      (by decide) rfl
  · exact listDirectory_pagination.2 [64] [(pageAck, [entryA12])] listNakBad initialState 10
      (by intro pr hpr; rw [List.mem_singleton] at hpr; subst hpr; exact ⟨rfl, rfl⟩)
      (by decide) rfl (by decide)

end MavFtp
